import Mathlib

/-!
Shallow embedding of the passbolt Ansible collection
(plugins/lookup/passbolt.py, plugins/lookup/passbolt_inventory.py,
plugins/filter/check_naming.py).

Python dictionaries with string keys and string values are modelled as
association lists whose keys are unique (Python guarantees key uniqueness);
`dget` is `dict.get` (first occurrence), `dset` is item assignment
(update-in-place-or-append), `dpop` is `dict.pop`.  Python truthiness of an
optional string (`None` and `""` are falsy) is `truthyOpt`.  The external
`PassboltAPI` client, the Ansible templar and the `re` / `secrets` standard
library modules are modelled as explicit parameters (an `Api` record, a
`templ : String → String` function, a boolean matcher, an `rng` stream).
-/

/-- A Python `dict[str, str]` as an association list. -/
abbrev Dict := List (String × String)

/-- `d.get(k)` — the value at the first occurrence of key `k`. -/
def dget (d : Dict) (k : String) : Option String :=
  (d.find? (fun p => p.1 == k)).map Prod.snd

/-- `d.get(k, v)` — lookup with a default. -/
def dgetD (d : Dict) (k v : String) : String :=
  (dget d k).getD v

/-- Python truthiness of `d.get(k)`: `None` and the empty string are falsy. -/
def truthyOpt : Option String → Bool
  | some s => !(s == "")
  | none => false

/-- `d[k] = v` — replace the value at `k` in place, else append at the end. -/
def dset : Dict → String → String → Dict
  | [], k, v => [(k, v)]
  | p :: rest, k, v =>
    if p.1 == k then (k, v) :: rest else p :: dset rest k v

/-- `d.pop(k, None)`'s effect on the dict: remove the key. -/
def dpop (d : Dict) (k : String) : Dict :=
  d.filter (fun p => !(p.1 == k))

/-- Python `str.lower()` (ASCII, which is all the compared literals use). -/
def pyLower (s : String) : String :=
  String.mk (s.data.map Char.toLower)

/-- Python `string.ascii_lowercase`. -/
def ascii_lowercase : List Char := (List.range 26).map (fun i => Char.ofNat (97 + i))

/-- Python `string.ascii_uppercase`. -/
def ascii_uppercase : List Char := (List.range 26).map (fun i => Char.ofNat (65 + i))

/-- Python `string.ascii_letters`. -/
def ascii_letters : List Char := ascii_lowercase ++ ascii_uppercase

/-- Python `string.digits`. -/
def digits : List Char := (List.range 10).map (fun i => Char.ofNat (48 + i))

/-- Python `string.punctuation` (ASCII codes 33-47, 58-64, 91-96, 123-126). -/
def punctuation : List Char :=
  (List.range 15).map (fun i => Char.ofNat (33 + i))
    ++ (List.range 7).map (fun i => Char.ofNat (58 + i))
    ++ (List.range 6).map (fun i => Char.ofNat (91 + i))
    ++ (List.range 4).map (fun i => Char.ofNat (123 + i))

namespace Passbolt

/-- `LookupModule._format_result` of plugins/lookup/passbolt.py.  The
`description` field translates the Python expression
`"description" in resource_secrets and resource_secrets.get("description", "")
or resource.get("description", "")` with Python `and`/`or` truthiness. -/
def format_result (resource resource_secrets : Dict) : Dict :=
  [ ("name", dgetD resource "name" ""),
    ("uri", dgetD resource "uri" ""),
    ("username", dgetD resource "username" ""),
    ("password", dgetD resource_secrets "password" ""),
    ("description",
      match dget resource_secrets "description" with
      | some v => if v == "" then dgetD resource "description" "" else v
      | none => dgetD resource "description" ""),
    ("deleted", dgetD resource "deleted" ""),
    ("created", dgetD resource "created" ""),
    ("modified", dgetD resource "modified" ""),
    ("modified_by", dgetD resource "modified_by" ""),
    ("resource_type_id", dgetD resource "resource_type_id" ""),
    ("folder_parent_id", dgetD resource "folder_parent_id" ""),
    ("personal", dgetD resource "personal" "") ]

/-- The first truthy `item.get(k)` over a list of dicts: the generator
`next((item.get(k) for item in environment_variables if item.get(k)), default)`
before the default is applied. -/
def firstTruthy (l : List Dict) (k : String) : Option String :=
  (l.filterMap (fun item =>
    match dget item k with
    | some v => if v == "" then none else some v
    | none => none)).head?

/-- `LookupModule._get_env_value` of plugins/lookup/passbolt.py.
`templ` is `self._templar.template`, `environ` the process environment,
`envlist` the task's `environment` variable list (`[]` models both an empty
list and `None`, which Python's `if not environment_variables` treats alike). -/
def get_env_value (templ : String → String) (environ : Dict)
    (envlist : List Dict) (selected_variable d : String) : String :=
  if envlist.isEmpty then
    dgetD environ selected_variable d
  else
    templ ((firstTruthy envlist selected_variable).getD d)

/-- `LookupModule._get_value` of plugins/lookup/passbolt.py. -/
def get_value (templ : String → String) (environ : Dict) (vars : Dict)
    (envlist : List Dict) (selected_variable d : String) : String :=
  match dget vars selected_variable with
  | some v => v
  | none => get_env_value templ environ envlist selected_variable d

/-- `LookupModule._create_new_password` of plugins/lookup/passbolt.py.
`special_chars` holds `str()` of the resolved
`new_resource_password_special_chars` option, `length` the already
`int()`-converted `new_resource_password_length`, and `rng i` models the
`i`-th draw of `secrets.choice` as an index into the character list. -/
def create_new_password (special_chars : String) (length : Nat)
    (rng : Nat → Nat) : String :=
  let characters :=
    ascii_letters ++ digits
      ++ (if pyLower special_chars == "true" then punctuation else [])
  String.mk ((List.range length).map
    (fun i => characters.getD (rng i % characters.length) 'a'))

/-- Errors a lookup run can raise: the `Exception("resource ... not found")`
of `LookupModule.run`, or a `KeyError` escaping `LookupModule._search`
(`item[k]` on a resource lacking the key). -/
inductive RunErr where
  | notFound (msg : String)
  | keyError
deriving DecidableEq

/-- The `new_resource` payload built by `LookupModule._create_new_resource`
and passed to `PassboltAPI.create_resource` (`kwargs.get` on a missing key is
`None`, hence the `Option`s). -/
structure CreateReq where
  name : Option String
  username : Option String
  uri : Option String
  resource_type_id : String
  folder_parent_id : Option String
  secretData : String
deriving DecidableEq

/-- The calls a lookup run makes against the Passbolt server / GPG layer, in
order.  `createResource` is the only call that changes server state. -/
inductive Effect where
  | getResources
  | getResourcePerUuid (uuid : String)
  | getResourceSecret (id : String)
  | decryptSecret (id : String)
  | getUserPublicKey (uid : String)
  | encryptData
  | createResource (req : CreateReq)
deriving DecidableEq

/-- Classification of the effects: only `create_resource` writes. -/
def isWrite : Effect → Bool
  | Effect.createResource _ => true
  | _ => false

/-- The external `PassboltAPI` client, as a pure oracle: `resources` is what
`get_resources()` returns, `secretOf id` the decrypted and JSON-parsed secret
of resource `id` (collapsing `get_resource_secret`, `decrypt` and the
`json.loads` fallback), `createStatus`/`createBody` the response to
`create_resource`. -/
structure Api where
  resources : List Dict
  resourceByUuid : String → Dict
  secretOf : String → Dict
  resourceTypeId : String
  userId : String
  publicKeyOf : String → String
  encryptFn : String → String → String → String
  createStatus : CreateReq → Nat
  createBody : CreateReq → Dict

/-- The parts of `self.dict_config` the run consults, with each value already
`str()`-converted (resp. `int()`-converted for the password length). -/
structure Cfg where
  create_new_resource : String
  new_resource_password_length : Nat
  new_resource_password_special_chars : String

/-- `LookupModule._search`: counts the kwargs entries whose value equals the
resource's, raising `KeyError` when the resource lacks one of the keys; the
result is `expected == res`, i.e. every kwargs entry matched. -/
def search (item kw : Dict) : Except RunErr Bool :=
  if kw.all (fun p => (dget item p.1).isSome) then
    Except.ok (kw.all (fun p => dget item p.1 == some p.2))
  else Except.error RunErr.keyError

/-- `next((item for item in self.passbolt_resources if self._search(item,
kwargs)), dict())` — lazy, so a `KeyError` in `_search` aborts the scan. -/
def findFirstMatch (kw : Dict) : List Dict → Except RunErr Dict
  | [] => Except.ok []
  | item :: rest =>
    match search item kw with
    | Except.error e => Except.error e
    | Except.ok b => if b then Except.ok item else findFirstMatch kw rest

/-- `LookupModule.get_resource_per_term`. -/
def get_resource_per_term (resources : List Dict) (term : String) : Dict :=
  (resources.find? (fun item => dget item "name" == some term)).getD []

/-- The resource-selection branch of the `run` loop body, with the effects it
performs (`kw` already holds `kwargs["name"] = term`). -/
def selectResource (api : Api) (kw : Dict) (term : String) :
    Except RunErr Dict × List Effect :=
  if dget kw "per_uuid" == some "true" then
    (Except.ok (api.resourceByUuid term), [Effect.getResourcePerUuid term])
  else if truthyOpt (dget kw "wantlist") then
    (Except.ok (get_resource_per_term api.resources term), [])
  else if kw.length != 0 then
    (findFirstMatch kw api.resources, [])
  else
    (Except.ok (get_resource_per_term api.resources term), [])

/-- The `if description: kwargs["description"] = description` /
`if password: kwargs["password"] = password` re-insertion before
`_create_new_resource` (`description`/`password` were popped before the
loop; Python truthiness applies). -/
def restoreSecrets (desc pwd : Option String) (kw : Dict) : Dict :=
  let kw1 := match desc with
    | some s => if s == "" then kw else dset kw "description" s
    | none => kw
  match pwd with
  | some s => if s == "" then kw1 else dset kw1 "password" s
  | none => kw1

/-- `LookupModule._create_new_resource`: build the payload, create it, and
format either the created body (HTTP 200) or empty dicts. -/
def create_new_resource (api : Api) (cfg : Cfg) (rng : Nat → Nat)
    (kwargs : Dict) : Dict × List Effect :=
  let new_password := dgetD kwargs "password"
    (create_new_password cfg.new_resource_password_special_chars
      cfg.new_resource_password_length rng)
  let new_description := dgetD kwargs "description" "Ansible Generated"
  let req : CreateReq :=
    { name := dget kwargs "name"
      username := dget kwargs "username"
      uri := dget kwargs "uri"
      resource_type_id := api.resourceTypeId
      folder_parent_id := dget kwargs "folder_parent_id"
      secretData := api.encryptFn new_description new_password
        (api.publicKeyOf api.userId) }
  let effs := [Effect.getUserPublicKey api.userId, Effect.encryptData,
    Effect.createResource req]
  if api.createStatus req == 200 then
    (format_result (api.createBody req)
      [("password", new_password), ("description", new_description)], effs)
  else
    (format_result [] [], effs)

/-- One iteration of the `for term in terms` loop of `LookupModule.run`.
The state is the mutable `kwargs` dict together with the accumulated `ret`
list; `firstTerm` is `terms[0]`, referenced by the not-found exception. -/
def processTerm (api : Api) (cfg : Cfg) (rng : Nat → Nat) (firstTerm : String)
    (desc pwd : Option String) (st : Dict × List Dict) (term : String) :
    Except RunErr (Dict × List Dict) × List Effect :=
  let kw := dset st.1 "name" term
  let sel := selectResource api kw term
  match sel.1 with
  | Except.error e => (Except.error e, sel.2)
  | Except.ok resource =>
    if truthyOpt (dget resource "id") then
      let rid := dgetD resource "id" ""
      (Except.ok (kw, st.2 ++ [format_result resource (api.secretOf rid)]),
       sel.2 ++ [Effect.getResourceSecret rid, Effect.decryptSecret rid])
    else
      if pyLower cfg.create_new_resource == "true" then
        let kw2 := restoreSecrets desc pwd kw
        let created := create_new_resource api cfg rng kw2
        (Except.ok (kw2, st.2 ++ [created.1]), sel.2 ++ created.2)
      else
        (Except.error (RunErr.notFound
          ("resource " ++ firstTerm ++ " not found")), sel.2)

/-- The `for term in terms` loop of `LookupModule.run`. -/
def runLoop (api : Api) (cfg : Cfg) (rng : Nat → Nat) (firstTerm : String)
    (desc pwd : Option String) :
    Dict × List Dict → List String → Except RunErr (List Dict) × List Effect
  | st, [] => (Except.ok st.2, [])
  | st, t :: ts =>
    let pr := processTerm api cfg rng firstTerm desc pwd st t
    match pr.1 with
    | Except.error e => (Except.error e, pr.2)
    | Except.ok st2 =>
      let rest := runLoop api cfg rng firstTerm desc pwd st2 ts
      (rest.1, pr.2 ++ rest.2)

/-- `LookupModule.run`: `passbolt_init` fetches the resource list unless
`per_uuid == "true"`, `description` and `password` are popped from the
kwargs, and the loop runs over the terms. -/
def run (api : Api) (cfg : Cfg) (rng : Nat → Nat) (terms : List String)
    (kwargs : Dict) : Except RunErr (List Dict) × List Effect :=
  let initEffs :=
    if dget kwargs "per_uuid" == some "true" then [] else [Effect.getResources]
  let desc := dget kwargs "description"
  let pwd := dget kwargs "password"
  let kw0 := dpop (dpop kwargs "description") "password"
  let res := runLoop api cfg rng (terms.headD "") desc pwd (kw0, []) terms
  (res.1, initEffs ++ res.2)

/-- A term finds an existing resource: the selection succeeds and yields a
dict with a truthy `id`. -/
def Matched (api : Api) (kw : Dict) (term : String) : Prop :=
  ∃ resource effs, selectResource api kw term = (Except.ok resource, effs) ∧
    truthyOpt (dget resource "id") = true

end Passbolt

namespace PassboltInventory

/-- `LookupModule._format_result` of plugins/lookup/passbolt_inventory.py.
Note the source spells the eleventh key `forder_parent_id`. -/
def format_result (resource resource_secrets : Dict) : Dict :=
  [ ("name", dgetD resource "name" ""),
    ("uri", dgetD resource "uri" ""),
    ("username", dgetD resource "username" ""),
    ("password", dgetD resource_secrets "password" ""),
    ("description", dgetD resource_secrets "description" ""),
    ("deleted", dgetD resource "deleted" ""),
    ("created", dgetD resource "created" ""),
    ("modified", dgetD resource "modified" ""),
    ("modified_by", dgetD resource "modified_by" ""),
    ("resource_type_id", dgetD resource "resource_type_id" ""),
    ("forder_parent_id", dgetD resource "folder_parent_id" ""),
    ("personal", dgetD resource "personal" "") ]

/-- `LookupModule._get_env_value` of plugins/lookup/passbolt_inventory.py:
the process environment overrides the supplied default, then the task
environment list is consulted, and the outcome is always templated. -/
def get_env_value (templ : String → String) (environ : Dict)
    (envlist : List Dict) (selected_variable d : String) : String :=
  let d2 := match dget environ selected_variable with
    | some v => v
    | none => d
  templ ((Passbolt.firstTruthy envlist selected_variable).getD d2)

/-- `LookupModule._get_value` of plugins/lookup/passbolt_inventory.py. -/
def get_value (templ : String → String) (environ : Dict) (vars : Dict)
    (envlist : List Dict) (selected_variable d : String) : String :=
  match dget vars selected_variable with
  | some v => v
  | none => get_env_value templ environ envlist selected_variable d

end PassboltInventory

namespace CheckNaming

/-- The inner `for i in sec.items()` loop of `all_secrets`
(plugins/filter/check_naming.py, list branch): `sec` is the dict being
iterated, the list argument the remaining items.  `rmatch rf s` models
`re.match(rf, s) is not None`.  A missing `username` key is Python's
`KeyError` from `sec['username']`. -/
def secItems (rmatch : String → String → Bool) (regexfil : String)
    (sec : Dict) : List (String × String) → Except String (List Dict)
  | [] => Except.ok []
  | p :: rest =>
    if p.1 == "name" then
      if rmatch regexfil p.2 then secItems rmatch regexfil sec rest
      else
        match dget sec "name", dget sec "username" with
        | some n, some u =>
          match secItems rmatch regexfil sec rest with
          | Except.error e => Except.error e
          | Except.ok r => Except.ok ([("name", n), ("user", u)] :: r)
        | _, _ => Except.error "KeyError"
    else secItems rmatch regexfil sec rest

/-- The list branch of `all_secrets`: accumulate each dict's uncompliant
entries in input order. -/
def all_secrets_list (rmatch : String → String → Bool) (d : List Dict)
    (regexfil : String) : Except String (List Dict) :=
  match d with
  | [] => Except.ok []
  | sec :: rest =>
    match secItems rmatch regexfil sec sec with
    | Except.error e => Except.error e
    | Except.ok r =>
      match all_secrets_list rmatch rest regexfil with
      | Except.error e => Except.error e
      | Except.ok rs => Except.ok (r ++ rs)

/-- The non-list branch of `all_secrets`: scan the dict's items for the
`name` key; raise on a non-matching name, return the compliant message on a
matching one, fall through to `None` when there is no `name` key. -/
def all_secrets_single (rmatch : String → String → Bool) (regexfil : String) :
    List (String × String) → Except String (Option String)
  | [] => Except.ok none
  | p :: rest =>
    if p.1 == "name" then
      if rmatch regexfil p.2 then Except.ok (some (p.2 ++ " is compliant"))
      else Except.error (p.2 ++ " is not compliant")
    else all_secrets_single rmatch regexfil rest

/-- The argument of `all_secrets`: either a list of dicts or a single dict. -/
inductive CheckInput where
  | many (l : List Dict)
  | one (d : Dict)

/-- The possible results of `all_secrets`. -/
inductive CheckOutput where
  | secrets (l : List Dict)
  | msg (s : String)
  | noneOut
deriving DecidableEq

/-- `all_secrets` of plugins/filter/check_naming.py (`type(d) == list`
dispatch). -/
def all_secrets (rmatch : String → String → Bool) (input : CheckInput)
    (regexfil : String) : Except String CheckOutput :=
  match input with
  | CheckInput.many l =>
    match all_secrets_list rmatch l regexfil with
    | Except.error e => Except.error e
    | Except.ok r => Except.ok (CheckOutput.secrets r)
  | CheckInput.one d =>
    match all_secrets_single rmatch regexfil d with
    | Except.error e => Except.error e
    | Except.ok (some s) => Except.ok (CheckOutput.msg s)
    | Except.ok none => Except.ok CheckOutput.noneOut

/-- `FilterModule.check_naming`. -/
def check_naming (rmatch : String → String → Bool) (s : CheckInput)
    (regexfil : String) : Except String CheckOutput :=
  all_secrets rmatch s regexfil

/-- `FilterModule.filters`: the registration mapping of the filter module. -/
def filters (rmatch : String → String → Bool) :
    List (String × (CheckInput → String → Except String CheckOutput)) :=
  [("check_naming", check_naming rmatch)]

end CheckNaming

/-- A concrete client whose server holds no resources. -/
def api0 : Passbolt.Api :=
  { resources := []
    resourceByUuid := fun _ => []
    secretOf := fun _ => []
    resourceTypeId := "rt"
    userId := "u0"
    publicKeyOf := fun _ => "pk"
    encryptFn := fun _ _ _ => "enc"
    createStatus := fun _ => 200
    createBody := fun _ => [] }

/-- A concrete client whose server holds one resource named `t`. -/
def apiMatch : Passbolt.Api :=
  { api0 with resources := [[("id", "1"), ("name", "t")]] }

/-- A configuration with resource creation enabled (`str(True)`). -/
def cfgOn : Passbolt.Cfg :=
  { create_new_resource := "True"
    new_resource_password_length := 4
    new_resource_password_special_chars := "False" }

/-- A configuration with resource creation disabled (`str(False)`). -/
def cfgOff : Passbolt.Cfg :=
  { cfgOn with create_new_resource := "False" }

/-- A deterministic stand-in for the `secrets.choice` draws. -/
def rng0 : Nat → Nat := fun _ => 0

/-- The creation payload the no-resource client receives for term `t`. -/
def req0 : Passbolt.CreateReq :=
  { name := some "t"
    username := none
    uri := none
    resource_type_id := "rt"
    folder_parent_id := none
    secretData := "enc" }

/-!
Theorems.
-/

/-- Claim C2 (code bug): `passbolt_inventory.py`'s `_format_result` spells its
eleventh key `forder_parent_id`, so the fixed key set of the claim is not
produced and the two plugins' key sets differ. -/
theorem inventory_format_key_typo :
    (PassboltInventory.format_result [] []).map Prod.fst =
      ["name", "uri", "username", "password", "description", "deleted",
       "created", "modified", "modified_by", "resource_type_id",
       "forder_parent_id", "personal"]
    ∧ dget (PassboltInventory.format_result [] []) "folder_parent_id" = none
    ∧ (Passbolt.format_result [] []).map Prod.fst ≠
        (PassboltInventory.format_result [] []).map Prod.fst :=
  ⟨rfl, rfl, by decide⟩

/-- Claim C3, counterexample: with a present-but-empty secret description the
Python `and`/`or` chain falls back to the resource's description, so the
output does not equal the secret's description. -/
theorem format_description_counterexample :
    dget (Passbolt.format_result [("description", "from-resource")]
        [("description", "")]) "description" = some "from-resource"
    ∧ dget ([("description", "")] : Dict) "description" = some ""
    ∧ ("from-resource" : String) ≠ "" :=
  ⟨rfl, rfl, by decide⟩

/-- Claim C3 as amended: every field of both formatters is copied unchanged
from its source (or defaults to `""`), except that `passbolt.py` uses the
secret's description only when it is present and non-empty, falling back to
the resource's description; `passbolt_inventory.py` always uses the secret's
description (or `""`). -/
theorem format_result_fields (resource secrets : Dict) :
    dget (Passbolt.format_result resource secrets) "name"
        = some (dgetD resource "name" "")
    ∧ dget (Passbolt.format_result resource secrets) "uri"
        = some (dgetD resource "uri" "")
    ∧ dget (Passbolt.format_result resource secrets) "username"
        = some (dgetD resource "username" "")
    ∧ dget (Passbolt.format_result resource secrets) "password"
        = some (dgetD secrets "password" "")
    ∧ dget (Passbolt.format_result resource secrets) "description"
        = some (match dget secrets "description" with
                | some v => if v == "" then dgetD resource "description" "" else v
                | none => dgetD resource "description" "")
    ∧ dget (Passbolt.format_result resource secrets) "deleted"
        = some (dgetD resource "deleted" "")
    ∧ dget (Passbolt.format_result resource secrets) "created"
        = some (dgetD resource "created" "")
    ∧ dget (Passbolt.format_result resource secrets) "modified"
        = some (dgetD resource "modified" "")
    ∧ dget (Passbolt.format_result resource secrets) "modified_by"
        = some (dgetD resource "modified_by" "")
    ∧ dget (Passbolt.format_result resource secrets) "resource_type_id"
        = some (dgetD resource "resource_type_id" "")
    ∧ dget (Passbolt.format_result resource secrets) "folder_parent_id"
        = some (dgetD resource "folder_parent_id" "")
    ∧ dget (Passbolt.format_result resource secrets) "personal"
        = some (dgetD resource "personal" "")
    ∧ dget (PassboltInventory.format_result resource secrets) "password"
        = some (dgetD secrets "password" "")
    ∧ dget (PassboltInventory.format_result resource secrets) "description"
        = some (dgetD secrets "description" "")
    ∧ dget (PassboltInventory.format_result resource secrets) "forder_parent_id"
        = some (dgetD resource "folder_parent_id" "") :=
  ⟨rfl, rfl, rfl, rfl, rfl, rfl, rfl, rfl, rfl, rfl, rfl, rfl, rfl, rfl, rfl⟩

/-- Claim C4, counterexample: with the option unset in the playbook
variables, present in the process environment, and absent from a non-empty
task environment list, `passbolt.py` returns the (templated) default while
`passbolt_inventory.py` returns the process-environment value, so the two
plugins do not resolve the same option to the same value. -/
theorem get_value_divergence :
    Passbolt.get_value id [("PASSBOLT_BASE_URL", "x")] [] [[("OTHER", "y")]]
        "PASSBOLT_BASE_URL" "" = ""
    ∧ PassboltInventory.get_value id [("PASSBOLT_BASE_URL", "x")] []
        [[("OTHER", "y")]] "PASSBOLT_BASE_URL" "" = "x"
    ∧ ("" : String) ≠ "x" :=
  ⟨rfl, rfl, by decide⟩

/-- Claim C4 as amended: both plugins return the playbook variable when set,
and both return the templated task-list value when the list supplies a truthy
one; beyond that they diverge — with an empty task list `passbolt.py` returns
the raw process-environment value or default while `passbolt_inventory.py`
templates it, and with a non-empty task list lacking the option `passbolt.py`
ignores the process environment while `passbolt_inventory.py` falls back to
it. -/
theorem get_value_precedence (templ : String → String) (environ vars : Dict)
    (envlist : List Dict) (k d v : String) :
    (dget vars k = some v →
       Passbolt.get_value templ environ vars envlist k d = v ∧
       PassboltInventory.get_value templ environ vars envlist k d = v)
  ∧ (dget vars k = none → Passbolt.firstTruthy envlist k = some v →
       Passbolt.get_value templ environ vars envlist k d = templ v ∧
       PassboltInventory.get_value templ environ vars envlist k d = templ v)
  ∧ (dget vars k = none → envlist = [] → dget environ k = some v →
       Passbolt.get_value templ environ vars envlist k d = v ∧
       PassboltInventory.get_value templ environ vars envlist k d = templ v)
  ∧ (dget vars k = none → envlist = [] → dget environ k = none →
       Passbolt.get_value templ environ vars envlist k d = d ∧
       PassboltInventory.get_value templ environ vars envlist k d = templ d)
  ∧ (dget vars k = none → envlist ≠ [] → Passbolt.firstTruthy envlist k = none →
       Passbolt.get_value templ environ vars envlist k d = templ d ∧
       PassboltInventory.get_value templ environ vars envlist k d
         = templ ((dget environ k).getD d)) := by
  refine ⟨?_, ?_, ?_, ?_, ?_⟩
  · intro h
    simp [Passbolt.get_value, PassboltInventory.get_value, h]
  · intro h hf
    have hne : ¬ envlist.isEmpty := by
      rcases envlist with _ | ⟨e, es⟩
      · simp [Passbolt.firstTruthy] at hf
      · simp
    constructor
    · simp [Passbolt.get_value, Passbolt.get_env_value, h, hf, hne]
    · simp [PassboltInventory.get_value, PassboltInventory.get_env_value, h, hf]
  · intro h he hv
    subst he
    constructor
    · simp [Passbolt.get_value, Passbolt.get_env_value, h, dgetD, hv]
    · simp [PassboltInventory.get_value, PassboltInventory.get_env_value, h,
        hv, Passbolt.firstTruthy]
  · intro h he hv
    subst he
    constructor
    · simp [Passbolt.get_value, Passbolt.get_env_value, h, dgetD, hv]
    · simp [PassboltInventory.get_value, PassboltInventory.get_env_value, h,
        hv, Passbolt.firstTruthy]
  · intro h hne hf
    have hne2 : ¬ envlist.isEmpty := by
      rcases envlist with _ | ⟨e, es⟩
      · exact absurd rfl hne
      · simp
    constructor
    · simp [Passbolt.get_value, Passbolt.get_env_value, h, hf, hne2]
    · rcases hv2 : dget environ k with _ | w <;>
        simp [PassboltInventory.get_value, PassboltInventory.get_env_value, h,
          hf, hv2]

/-- Witness for the amended C4 theorem at a concrete input: a playbook
variable wins in both plugins. -/
theorem get_value_precedence_witness :
    Passbolt.get_value id [] [("K", "v")] [] "K" "" = "v" ∧
    PassboltInventory.get_value id [] [("K", "v")] [] "K" "" = "v" :=
  (get_value_precedence id [] [("K", "v")] [] "K" "" "v").1 rfl

/-- Claim C6, counterexample: the registration mapping of the filter module
has one entry, not two. -/
theorem filters_not_two :
    ¬ ((CheckNaming.filters (fun _ _ => false)).length = 2) := by
  decide

/-- Claim C6 as amended: the mapping returned by `FilterModule.filters`
contains exactly one filter entry, named `check_naming`. -/
theorem filters_single_entry (rmatch : String → String → Bool) :
    (CheckNaming.filters rmatch).length = 1 ∧
    (CheckNaming.filters rmatch).map Prod.fst = ["check_naming"] :=
  ⟨rfl, rfl⟩

/-- The single-dict scan returns/raises at the first `name` item, which is
exactly what `dict.get` finds. -/
theorem all_secrets_single_eq (rmatch : String → String → Bool)
    (regexfil : String) (items : List (String × String)) :
    CheckNaming.all_secrets_single rmatch regexfil items =
      (match dget items "name" with
       | none => Except.ok none
       | some n =>
         if rmatch regexfil n then Except.ok (some (n ++ " is compliant"))
         else Except.error (n ++ " is not compliant")) := by
  induction items with
  | nil => rfl
  | cons p rest ih =>
    cases hp : p.1 == "name" with
    | true => simp [CheckNaming.all_secrets_single, dget, List.find?_cons, hp]
    | false =>
      simp [CheckNaming.all_secrets_single, dget, List.find?_cons, hp]
      simpa [dget] using ih

/-- Claim C8: on a single dict with a `name` key the filter raises
`"<name> is not compliant"` exactly when the name does not match, returns
`"<name> is compliant"` when it does, and returns `None` when there is no
`name` key. -/
theorem check_naming_single_spec (rmatch : String → String → Bool)
    (regexfil : String) (d : Dict) :
    CheckNaming.all_secrets rmatch (CheckNaming.CheckInput.one d) regexfil =
      (match dget d "name" with
       | none => Except.ok CheckNaming.CheckOutput.noneOut
       | some n =>
         if rmatch regexfil n then
           Except.ok (CheckNaming.CheckOutput.msg (n ++ " is compliant"))
         else Except.error (n ++ " is not compliant")) := by
  have h := all_secrets_single_eq rmatch regexfil d
  rcases hn : dget d "name" with _ | n
  · simp only [CheckNaming.all_secrets, h, hn]
  · rcases hr : rmatch regexfil n <;> simp only [CheckNaming.all_secrets, h, hn, hr] <;> simp

/-- Claim C9: the generated password has exactly the requested length and
draws every character from ASCII letters and digits, extended with
punctuation exactly when the special-chars option stringifies, lowercased,
to `true`. -/
theorem create_new_password_spec (special : String) (n : Nat)
    (rng : Nat → Nat) :
    (Passbolt.create_new_password special n rng).length = n
    ∧ ((Passbolt.create_new_password special n rng).data.all
        (fun c => (ascii_letters ++ digits ++
          (if pyLower special == "true" then punctuation else [])).contains c))
        = true := by
  constructor
  · simp [Passbolt.create_new_password]
  · rw [List.all_eq_true]
    intro c hc
    simp only [Passbolt.create_new_password, String.mk] at hc
    obtain ⟨i, hi, hc⟩ := List.mem_map.mp hc
    set chars := ascii_letters ++ digits ++
      (if pyLower special == "true" then punctuation else []) with hchars
    have hpos : 0 < chars.length := by
      rcases h : pyLower special == "true" <;> simp [hchars, h] <;> decide
    have hlt : rng i % chars.length < chars.length := Nat.mod_lt _ hpos
    have hmem : chars.getD (rng i % chars.length) 'a' ∈ chars := by
      rw [List.getD_eq_getElem?_getD, List.getElem?_eq_getElem hlt]
      exact List.getElem_mem hlt
    rw [← hc]
    exact List.elem_eq_true_of_mem hmem

/-- When a dict's lookup misses, no item carries the key. -/
theorem dget_none_keys (sec : Dict) (k : String) (h : dget sec k = none) :
    ∀ p ∈ sec, (p.1 == k) = false := by
  intro p hp
  have hf : sec.find? (fun q => q.1 == k) = none := by
    simpa [dget] using h
  have := List.find?_eq_none.mp hf p hp
  simpa using this

/-- With unique keys, the items carrying key `k` are exactly the one `dget`
finds. -/
theorem dict_filter_key (sec : Dict) (k v : String)
    (hnd : (sec.map Prod.fst).Nodup) (hv : dget sec k = some v) :
    sec.filter (fun p => p.1 == k) = [(k, v)] := by
  induction sec with
  | nil => simp [dget] at hv
  | cons p rest ih =>
    rw [List.map_cons, List.nodup_cons] at hnd
    obtain ⟨hp, hrest⟩ := hnd
    cases hpk : p.1 == k with
    | true =>
      have hk : p.1 = k := eq_of_beq hpk
      have hv2 : p.2 = v := by
        simpa [dget, List.find?_cons, hpk] using hv
      have hempty : rest.filter (fun q => q.1 == k) = [] := by
        rw [List.filter_eq_nil_iff]
        intro q hq
        intro hqk
        exact hp (hk ▸ (eq_of_beq hqk) ▸ List.mem_map_of_mem Prod.fst hq)
      rw [List.filter_cons]
      simp only [hpk, if_pos rfl]
      rw [hempty]
      cases p
      simp_all
    | false =>
      have hv2 : dget rest k = some v := by
        simpa [dget, List.find?_cons, hpk] using hv
      simp [List.filter_cons, hpk, ih hrest hv2]

/-- With unique keys, every item carrying key `k` holds the looked-up
value. -/
theorem dict_value_unique (sec : Dict) (k v : String)
    (hnd : (sec.map Prod.fst).Nodup) (hv : dget sec k = some v) :
    ∀ w, (k, w) ∈ sec → w = v := by
  intro w hw
  have hmem : (k, w) ∈ sec.filter (fun p => p.1 == k) :=
    List.mem_filter.mpr ⟨hw, by simp⟩
  rw [dict_filter_key sec k v hnd hv] at hmem
  have := List.mem_singleton.mp hmem
  exact congrArg Prod.snd this

/-- The inner item loop of the filter yields nothing when no item carries the
`name` key. -/
theorem secItems_none (rm : String → String → Bool) (rf : String) (sec : Dict) :
    ∀ items : List (String × String), (∀ p ∈ items, (p.1 == "name") = false) →
    CheckNaming.secItems rm rf sec items = Except.ok [] := by
  intro items
  induction items with
  | nil => intro _; rfl
  | cons p rest ih =>
    intro h
    have hp := h p (List.mem_cons_self _ _)
    simp only [CheckNaming.secItems, hp]
    simp only [Bool.false_eq_true, if_false]
    exact ih (fun q hq => h q (List.mem_cons_of_mem _ hq))

/-- The inner item loop of the filter, when the dict's `name` is `n` and its
`username` is `u`: one uncompliant entry per `name` item when the name fails
the regex, nothing when it matches. -/
theorem secItems_go (rm : String → String → Bool) (rf : String) (sec : Dict)
    (n u : String) (hn : dget sec "name" = some n)
    (hu : dget sec "username" = some u) :
    ∀ items : List (String × String), (∀ v, ("name", v) ∈ items → v = n) →
    CheckNaming.secItems rm rf sec items =
      Except.ok (if rm rf n then []
        else (items.filter (fun p => p.1 == "name")).map
          (fun _ => [("name", n), ("user", u)])) := by
  intro items
  induction items with
  | nil =>
    intro _
    cases hr : rm rf n <;> simp [CheckNaming.secItems, hr]
  | cons p rest ih =>
    intro h
    have hrec := ih (fun v hv => h v (List.mem_cons_of_mem _ hv))
    obtain ⟨a, b⟩ := p
    cases hpk : a == "name" with
    | false =>
      simp only [CheckNaming.secItems, hpk, Bool.false_eq_true, if_false]
      rw [hrec, List.filter_cons]
      simp [hpk]
    | true =>
      have hk : a = "name" := eq_of_beq hpk
      subst hk
      have hb : b = n := h b (List.mem_cons_self _ _)
      subst hb
      cases hr : rm rf b with
      | true =>
        simp only [CheckNaming.secItems, beq_self_eq_true, if_true, hr]
        rw [hrec]
        simp [hr]
      | false =>
        simp only [CheckNaming.secItems, beq_self_eq_true, if_true, hr,
          Bool.false_eq_true, if_false, hn, hu]
        rw [hrec]
        simp [hr, List.filter_cons]

/-- The inner item loop over a whole dict with unique keys: one uncompliant
entry when the dict's name fails the regex, nothing otherwise. -/
theorem secItems_full (rm : String → String → Bool) (rf : String) (sec : Dict)
    (hnd : (sec.map Prod.fst).Nodup) (hu : (dget sec "username").isSome) :
    CheckNaming.secItems rm rf sec sec =
      Except.ok (match dget sec "name" with
        | some n => if rm rf n then []
                    else [[("name", n), ("user", dgetD sec "username" "")]]
        | none => []) := by
  rcases hn : dget sec "name" with _ | n
  · rw [secItems_none rm rf sec sec (dget_none_keys sec "name" hn)]
  · obtain ⟨u, hu2⟩ := Option.isSome_iff_exists.mp hu
    rw [secItems_go rm rf sec n u hn hu2 sec
      (dict_value_unique sec "name" n hnd hn)]
    rcases hr : rm rf n with _ | _ <;>
      simp [hr, dict_filter_key sec "name" n hnd hn, dgetD, hu2]

/-- The list branch of the filter over well-formed dicts equals a filterMap
keeping, in order, the entries whose name fails the regex. -/
theorem all_secrets_list_spec (rm : String → String → Bool) (rf : String) :
    ∀ d : List Dict, (∀ sec ∈ d, (sec.map Prod.fst).Nodup) →
    (∀ sec ∈ d, (dget sec "username").isSome) →
    CheckNaming.all_secrets_list rm d rf =
      Except.ok (d.filterMap (fun sec =>
        match dget sec "name" with
        | some n => if rm rf n then none
                    else some [("name", n), ("user", dgetD sec "username" "")]
        | none => none)) := by
  intro d
  induction d with
  | nil => intro _ _; rfl
  | cons sec rest ih =>
    intro hnd hu
    have h1 := secItems_full rm rf sec (hnd sec (List.mem_cons_self _ _))
      (hu sec (List.mem_cons_self _ _))
    have h2 := ih (fun s hs => hnd s (List.mem_cons_of_mem _ hs))
      (fun s hs => hu s (List.mem_cons_of_mem _ hs))
    rcases hn : dget sec "name" with _ | n
    · rw [hn] at h1
      simp only [CheckNaming.all_secrets_list, h1, h2, List.filterMap_cons, hn]
      simp
    · rw [hn] at h1
      have h3 : CheckNaming.secItems rm rf sec sec =
          Except.ok (if rm rf n then []
            else [[("name", n), ("user", dgetD sec "username" "")]]) := h1
      rcases hr : rm rf n with _ | _ <;> rw [hr] at h3 <;>
        simp only [CheckNaming.all_secrets_list, h3, h2, List.filterMap_cons,
          hn, hr, if_true, if_false] <;> simp

/-- Claim C5: over a list of well-formed resource dicts (unique keys, a
`username` key present), `check_naming` returns exactly the entries whose
name does not match the regex, each as a dict holding that resource's name
and username, in input order; matching resources contribute nothing.
`re.match` of the Python standard library is abstracted as the Boolean
matcher `rmatch`. -/
theorem check_naming_list_spec (rmatch : String → String → Bool)
    (d : List Dict) (regexfil : String)
    (hnd : ∀ sec ∈ d, (sec.map Prod.fst).Nodup)
    (husr : ∀ sec ∈ d, (dget sec "username").isSome) :
    CheckNaming.all_secrets rmatch (CheckNaming.CheckInput.many d) regexfil =
      Except.ok (CheckNaming.CheckOutput.secrets (d.filterMap (fun sec =>
        match dget sec "name" with
        | some n => if rmatch regexfil n then none
                    else some [("name", n), ("user", dgetD sec "username" "")]
        | none => none))) := by
  simp [CheckNaming.all_secrets,
    all_secrets_list_spec rmatch regexfil d hnd husr]

/-- Witness for the C5 theorem at a concrete input: of two resources, the
non-matching one is reported with its name and username, the matching one is
dropped. -/
theorem check_naming_list_witness :
    CheckNaming.all_secrets (fun _ s => s == "good")
      (CheckNaming.CheckInput.many
        [[("name", "bad"), ("username", "u1")],
         [("name", "good"), ("username", "u2")]]) "rx" =
      Except.ok (CheckNaming.CheckOutput.secrets
        [[("name", "bad"), ("user", "u1")]]) := by
  have h := check_naming_list_spec (fun _ s => s == "good")
    [[("name", "bad"), ("username", "u1")],
     [("name", "good"), ("username", "u2")]] "rx" (by decide) (by decide)
  exact h

/-- Re-assigning the same dict key keeps only the last value. -/
theorem dset_dset (kw : Dict) (k a b : String) :
    dset (dset kw k a) k b = dset kw k b := by
  induction kw with
  | nil => simp [dset]
  | cons p rest ih =>
    cases hp : p.1 == k with
    | true => simp [dset, hp]
    | false => simp [dset, hp, ih]

/-- Resource selection performs at most a per-uuid fetch: never a write. -/
theorem selectResource_snd (api : Passbolt.Api) (kw : Dict) (term : String) :
    (Passbolt.selectResource api kw term).2 = [] ∨
    (Passbolt.selectResource api kw term).2 =
      [Passbolt.Effect.getResourcePerUuid term] := by
  unfold Passbolt.selectResource
  split
  · right; rfl
  · split
    · left; rfl
    · split
      · left; rfl
      · left; rfl

/-- No effect of resource selection is a write. -/
theorem selectResource_no_write (api : Passbolt.Api) (kw : Dict)
    (term : String) :
    ∀ e ∈ (Passbolt.selectResource api kw term).2,
      Passbolt.isWrite e = false := by
  intro e he
  rcases selectResource_snd api kw term with h | h <;> rw [h] at he
  · simp at he
  · simp at he
    subst he
    rfl

/-- The kwargs scan only ever fails with a `KeyError`. -/
theorem findFirstMatch_error (kw : Dict) :
    ∀ l e, Passbolt.findFirstMatch kw l = Except.error e →
    e = Passbolt.RunErr.keyError := by
  intro l
  induction l with
  | nil =>
    intro e h
    simp [Passbolt.findFirstMatch] at h
  | cons item rest ih =>
    intro e h
    unfold Passbolt.findFirstMatch at h
    cases hs : Passbolt.search item kw with
    | error e2 =>
      rw [hs] at h
      have he2 : e2 = Passbolt.RunErr.keyError := by
        unfold Passbolt.search at hs
        split at hs
        · simp at hs
        · simpa using hs.symm
      simp at h
      rw [← h, he2]
    | ok b =>
      rw [hs] at h
      cases b with
      | true => simp at h
      | false => exact ih e (by simpa using h)

/-- Selection only ever fails with a `KeyError`. -/
theorem selectResource_error (api : Passbolt.Api) (kw : Dict) (term : String)
    (e : Passbolt.RunErr)
    (h : (Passbolt.selectResource api kw term).1 = Except.error e) :
    e = Passbolt.RunErr.keyError := by
  unfold Passbolt.selectResource at h
  split at h
  · simp at h
  · split at h
    · simp at h
    · split at h
      · exact findFirstMatch_error kw api.resources e (by simpa using h)
      · simp at h

/-- Loop-body reduction: a failing selection aborts the iteration. -/
theorem processTerm_sel_error (api : Passbolt.Api) (cfg : Passbolt.Cfg)
    (rng : Nat → Nat) (ft : String) (desc pwd : Option String)
    (st : Dict × List Dict) (t : String) (e : Passbolt.RunErr)
    (effs : List Passbolt.Effect)
    (hsel : Passbolt.selectResource api (dset st.1 "name" t) t
      = (Except.error e, effs)) :
    Passbolt.processTerm api cfg rng ft desc pwd st t
      = (Except.error e, effs) := by
  simp [Passbolt.processTerm, hsel]

/-- Loop-body reduction: a matched term fetches and formats the secret. -/
theorem processTerm_matched (api : Passbolt.Api) (cfg : Passbolt.Cfg)
    (rng : Nat → Nat) (ft : String) (desc pwd : Option String)
    (st : Dict × List Dict) (t : String) (resource : Dict)
    (effs : List Passbolt.Effect)
    (hsel : Passbolt.selectResource api (dset st.1 "name" t) t
      = (Except.ok resource, effs))
    (hid : truthyOpt (dget resource "id") = true) :
    Passbolt.processTerm api cfg rng ft desc pwd st t =
      (Except.ok (dset st.1 "name" t, st.2 ++
         [Passbolt.format_result resource
           (api.secretOf (dgetD resource "id" ""))]),
       effs ++ [Passbolt.Effect.getResourceSecret (dgetD resource "id" ""),
         Passbolt.Effect.decryptSecret (dgetD resource "id" "")]) := by
  simp [Passbolt.processTerm, hsel, hid]

/-- Loop-body reduction: an unmatched term with creation enabled creates. -/
theorem processTerm_unmatched_enabled (api : Passbolt.Api)
    (cfg : Passbolt.Cfg) (rng : Nat → Nat) (ft : String)
    (desc pwd : Option String) (st : Dict × List Dict) (t : String)
    (resource : Dict) (effs : List Passbolt.Effect)
    (hsel : Passbolt.selectResource api (dset st.1 "name" t) t
      = (Except.ok resource, effs))
    (hid : truthyOpt (dget resource "id") = false)
    (hon : pyLower cfg.create_new_resource = "true") :
    Passbolt.processTerm api cfg rng ft desc pwd st t =
      (Except.ok (Passbolt.restoreSecrets desc pwd (dset st.1 "name" t),
         st.2 ++ [(Passbolt.create_new_resource api cfg rng
           (Passbolt.restoreSecrets desc pwd (dset st.1 "name" t))).1]),
       effs ++ (Passbolt.create_new_resource api cfg rng
         (Passbolt.restoreSecrets desc pwd (dset st.1 "name" t))).2) := by
  simp [Passbolt.processTerm, hsel, hid, hon]

/-- Loop-body reduction: an unmatched term with creation disabled raises. -/
theorem processTerm_unmatched_disabled (api : Passbolt.Api)
    (cfg : Passbolt.Cfg) (rng : Nat → Nat) (ft : String)
    (desc pwd : Option String) (st : Dict × List Dict) (t : String)
    (resource : Dict) (effs : List Passbolt.Effect)
    (hsel : Passbolt.selectResource api (dset st.1 "name" t) t
      = (Except.ok resource, effs))
    (hid : truthyOpt (dget resource "id") = false)
    (hoff : ¬ pyLower cfg.create_new_resource = "true") :
    Passbolt.processTerm api cfg rng ft desc pwd st t =
      (Except.error (Passbolt.RunErr.notFound
        ("resource " ++ ft ++ " not found")), effs) := by
  simp [Passbolt.processTerm, hsel, hid, hoff]

/-- The creation call's trace: public-key fetch, encryption, and the one
write. -/
theorem create_new_resource_trace (api : Passbolt.Api) (cfg : Passbolt.Cfg)
    (rng : Nat → Nat) (kwargs : Dict) :
    ∃ req, (Passbolt.create_new_resource api cfg rng kwargs).2 =
      [Passbolt.Effect.getUserPublicKey api.userId,
       Passbolt.Effect.encryptData,
       Passbolt.Effect.createResource req] := by
  refine ⟨(⟨dget kwargs "name", dget kwargs "username", dget kwargs "uri",
    api.resourceTypeId, dget kwargs "folder_parent_id",
    api.encryptFn (dgetD kwargs "description" "Ansible Generated")
      (dgetD kwargs "password" (Passbolt.create_new_password
        cfg.new_resource_password_special_chars
        cfg.new_resource_password_length rng))
      (api.publicKeyOf api.userId)⟩ : Passbolt.CreateReq), ?_⟩
  simp only [Passbolt.create_new_resource]
  split <;> rfl

/-- Claim C1: in a lookup run, when a searched term's selection yields no
resource (no truthy `id`), the loop body creates a new resource and appends
its formatted result to the returned list if the resolved
`create_new_resource` configuration stringifies, lowercased, to `"true"`,
and raises the not-found exception otherwise.  `processTerm` is the body of
the `for term in terms` loop of `LookupModule.run`. -/
theorem run_unmatched_term (api : Passbolt.Api) (cfg : Passbolt.Cfg)
    (rng : Nat → Nat) (firstTerm term : String) (desc pwd : Option String)
    (kw : Dict) (ret : List Dict) (resource : Dict)
    (effs : List Passbolt.Effect)
    (hsel : Passbolt.selectResource api (dset kw "name" term) term
      = (Except.ok resource, effs))
    (hid : truthyOpt (dget resource "id") = false) :
    (pyLower cfg.create_new_resource = "true" →
      (Passbolt.processTerm api cfg rng firstTerm desc pwd (kw, ret) term).1 =
        Except.ok (Passbolt.restoreSecrets desc pwd (dset kw "name" term),
          ret ++ [(Passbolt.create_new_resource api cfg rng
            (Passbolt.restoreSecrets desc pwd (dset kw "name" term))).1]) ∧
      ∃ req, Passbolt.Effect.createResource req ∈
        (Passbolt.processTerm api cfg rng firstTerm desc pwd (kw, ret) term).2)
  ∧ (¬ pyLower cfg.create_new_resource = "true" →
      (Passbolt.processTerm api cfg rng firstTerm desc pwd (kw, ret) term).1 =
        Except.error (Passbolt.RunErr.notFound
          ("resource " ++ firstTerm ++ " not found"))) := by
  constructor
  · intro hon
    have hp := processTerm_unmatched_enabled api cfg rng firstTerm desc pwd
      (kw, ret) term resource effs hsel hid hon
    refine ⟨by rw [hp], ?_⟩
    obtain ⟨req, hreq⟩ := create_new_resource_trace api cfg rng
      (Passbolt.restoreSecrets desc pwd (dset kw "name" term))
    refine ⟨req, ?_⟩
    rw [hp]
    simp only []
    rw [List.mem_append]
    right
    rw [hreq]
    simp
  · intro hoff
    have hp := processTerm_unmatched_disabled api cfg rng firstTerm desc pwd
      (kw, ret) term resource effs hsel hid hoff
    rw [hp]

/-- Witness for the C1 theorem: against a server with no resources and
creation enabled, the loop body returns the formatted created resource. -/
theorem run_unmatched_term_witness :
    (Passbolt.processTerm api0 cfgOn rng0 "t" none none ([], []) "t").1 =
      Except.ok (Passbolt.restoreSecrets none none (dset [] "name" "t"),
        [] ++ [(Passbolt.create_new_resource api0 cfgOn rng0
          (Passbolt.restoreSecrets none none (dset [] "name" "t"))).1]) :=
  ((run_unmatched_term api0 cfgOn rng0 "t" "t" none none [] [] [] []
    rfl rfl).1 (by decide)).1

/-- With creation disabled no iteration of the run loop emits a write. -/
theorem runLoop_no_writes_disabled (api : Passbolt.Api) (cfg : Passbolt.Cfg)
    (rng : Nat → Nat) (ft : String) (desc pwd : Option String)
    (hoff : ¬ pyLower cfg.create_new_resource = "true") :
    ∀ ts st, ∀ e ∈ (Passbolt.runLoop api cfg rng ft desc pwd st ts).2,
      Passbolt.isWrite e = false := by
  intro ts
  induction ts with
  | nil =>
    intro st e he
    simp [Passbolt.runLoop] at he
  | cons t ts ih =>
    intro st e he
    have hself := selectResource_no_write api (dset st.1 "name" t) t
    rcases hsel : Passbolt.selectResource api (dset st.1 "name" t) t
      with ⟨selr, seffs⟩
    rw [hsel] at hself
    simp only [] at hself
    cases selr with
    | error e2 =>
      have hp := processTerm_sel_error api cfg rng ft desc pwd st t e2 seffs
        hsel
      simp only [Passbolt.runLoop, hp] at he
      exact hself e he
    | ok resource =>
      cases hid : truthyOpt (dget resource "id") with
      | true =>
        have hp := processTerm_matched api cfg rng ft desc pwd st t resource
          seffs hsel hid
        simp only [Passbolt.runLoop, hp] at he
        rw [List.mem_append] at he
        rcases he with he | he
        · rw [List.mem_append] at he
          rcases he with he | he
          · exact hself e he
          · simp at he
            rcases he with he | he <;> (subst he; rfl)
        · exact ih _ e he
      | false =>
        have hp := processTerm_unmatched_disabled api cfg rng ft desc pwd st
          t resource seffs hsel hid hoff
        simp only [Passbolt.runLoop, hp] at he
        exact hself e he

/-- When every term of the remaining list matches, no iteration emits a
write. -/
theorem runLoop_no_writes_matched (api : Passbolt.Api) (cfg : Passbolt.Cfg)
    (rng : Nat → Nat) (ft : String) (desc pwd : Option String) :
    ∀ ts (kw : Dict) (ret : List Dict),
    (∀ t ∈ ts, Passbolt.Matched api (dset kw "name" t) t) →
    ∀ e ∈ (Passbolt.runLoop api cfg rng ft desc pwd (kw, ret) ts).2,
      Passbolt.isWrite e = false := by
  intro ts
  induction ts with
  | nil =>
    intro kw ret _ e he
    simp [Passbolt.runLoop] at he
  | cons t ts ih =>
    intro kw ret hm e he
    obtain ⟨resource, effs, hsel, hid⟩ := hm t (List.mem_cons_self _ _)
    have hself := selectResource_no_write api (dset kw "name" t) t
    rw [hsel] at hself
    simp only [] at hself
    have hp := processTerm_matched api cfg rng ft desc pwd (kw, ret) t
      resource effs hsel hid
    simp only [Passbolt.runLoop, hp] at he
    rw [List.mem_append] at he
    rcases he with he | he
    · rw [List.mem_append] at he
      rcases he with he | he
      · exact hself e he
      · simp at he
        rcases he with he | he <;> (subst he; rfl)
    · refine ih (dset kw "name" t) _ ?_ e he
      intro t2 ht2
      rw [dset_dset]
      exact hm t2 (List.mem_cons_of_mem _ ht2)

/-- Claim C7: a lookup run's only server-state-changing call is resource
creation — with creation disabled the trace has no writes, a run in which
every term matches an existing resource performs reads only, and a write in
the trace forces creation to be enabled and some term to be unmatched. -/
theorem run_frame (api : Passbolt.Api) (cfg : Passbolt.Cfg) (rng : Nat → Nat)
    (terms : List String) (kwargs : Dict) :
    (¬ pyLower cfg.create_new_resource = "true" →
      ∀ e ∈ (Passbolt.run api cfg rng terms kwargs).2,
        Passbolt.isWrite e = false)
  ∧ ((∀ t ∈ terms, Passbolt.Matched api
        (dset (dpop (dpop kwargs "description") "password") "name" t) t) →
      ∀ e ∈ (Passbolt.run api cfg rng terms kwargs).2,
        Passbolt.isWrite e = false)
  ∧ (∀ req, Passbolt.Effect.createResource req ∈
        (Passbolt.run api cfg rng terms kwargs).2 →
      pyLower cfg.create_new_resource = "true" ∧
      ¬ (∀ t ∈ terms, Passbolt.Matched api
          (dset (dpop (dpop kwargs "description") "password") "name" t) t)) := by
  have hinit : ∀ e ∈ (if dget kwargs "per_uuid" == some "true" then
      ([] : List Passbolt.Effect) else [Passbolt.Effect.getResources]),
      Passbolt.isWrite e = false := by
    intro e he
    split at he
    · simp at he
    · simp at he
      subst he
      rfl
  have hA : ¬ pyLower cfg.create_new_resource = "true" →
      ∀ e ∈ (Passbolt.run api cfg rng terms kwargs).2,
        Passbolt.isWrite e = false := by
    intro hoff e he
    simp only [Passbolt.run] at he
    rw [List.mem_append] at he
    rcases he with he | he
    · exact hinit e he
    · exact runLoop_no_writes_disabled api cfg rng (terms.headD "")
        (dget kwargs "description") (dget kwargs "password") hoff terms _ e he
  have hB : (∀ t ∈ terms, Passbolt.Matched api
        (dset (dpop (dpop kwargs "description") "password") "name" t) t) →
      ∀ e ∈ (Passbolt.run api cfg rng terms kwargs).2,
        Passbolt.isWrite e = false := by
    intro hall e he
    simp only [Passbolt.run] at he
    rw [List.mem_append] at he
    rcases he with he | he
    · exact hinit e he
    · exact runLoop_no_writes_matched api cfg rng (terms.headD "")
        (dget kwargs "description") (dget kwargs "password") terms
        (dpop (dpop kwargs "description") "password") [] hall e he
  refine ⟨hA, hB, ?_⟩
  intro req hmem
  constructor
  · by_contra hoff
    have := hA hoff _ hmem
    simp [Passbolt.isWrite] at this
  · intro hall
    have := hB hall _ hmem
    simp [Passbolt.isWrite] at this

/-- Witness for the C7 theorem: a run whose single term matches the one
stored resource is reads-only, instantiated at the read that is in its
trace. -/
theorem run_frame_witness :
    Passbolt.isWrite Passbolt.Effect.getResources = false :=
  (run_frame apiMatch cfgOn rng0 ["t"] []).2.1
    (by
      intro t ht
      have ht2 : t = "t" := by simpa using ht
      subst ht2
      exact ⟨[("id", "1"), ("name", "t")], [], rfl, rfl⟩)
    Passbolt.Effect.getResources (by decide)

/-- A not-found failure of the loop body always carries the first term's
message. -/
theorem processTerm_notfound (api : Passbolt.Api) (cfg : Passbolt.Cfg)
    (rng : Nat → Nat) (ft : String) (desc pwd : Option String)
    (st : Dict × List Dict) (t : String) (msg : String)
    (h : (Passbolt.processTerm api cfg rng ft desc pwd st t).1 =
      Except.error (Passbolt.RunErr.notFound msg)) :
    msg = "resource " ++ ft ++ " not found" := by
  rcases hsel : Passbolt.selectResource api (dset st.1 "name" t) t
    with ⟨selr, seffs⟩
  cases selr with
  | error e2 =>
    rw [processTerm_sel_error api cfg rng ft desc pwd st t e2 seffs hsel] at h
    simp at h
    have hke : e2 = Passbolt.RunErr.keyError :=
      selectResource_error api (dset st.1 "name" t) t e2 (by rw [hsel])
    rw [hke] at h
    simp at h
  | ok resource =>
    cases hid : truthyOpt (dget resource "id") with
    | true =>
      rw [processTerm_matched api cfg rng ft desc pwd st t resource seffs
        hsel hid] at h
      simp at h
    | false =>
      by_cases hon : pyLower cfg.create_new_resource = "true"
      · rw [processTerm_unmatched_enabled api cfg rng ft desc pwd st t
          resource seffs hsel hid hon] at h
        simp at h
      · rw [processTerm_unmatched_disabled api cfg rng ft desc pwd st t
          resource seffs hsel hid hon] at h
        simp at h
        exact h.symm

/-- A not-found failure anywhere in the loop carries the first term's
message. -/
theorem runLoop_notfound (api : Passbolt.Api) (cfg : Passbolt.Cfg)
    (rng : Nat → Nat) (ft : String) (desc pwd : Option String) :
    ∀ ts st msg, (Passbolt.runLoop api cfg rng ft desc pwd st ts).1 =
      Except.error (Passbolt.RunErr.notFound msg) →
    msg = "resource " ++ ft ++ " not found" := by
  intro ts
  induction ts with
  | nil =>
    intro st msg h
    simp [Passbolt.runLoop] at h
  | cons t ts ih =>
    intro st msg h
    rcases hpe : Passbolt.processTerm api cfg rng ft desc pwd st t
      with ⟨pres, peffs⟩
    simp only [Passbolt.runLoop, hpe] at h
    cases pres with
    | error e2 =>
      simp at h
      exact processTerm_notfound api cfg rng ft desc pwd st t msg
        (by rw [hpe, h])
    | ok st2 =>
      simp at h
      exact ih st2 msg h

/-- Claim C10: over a non-empty term list with creation disabled, whenever
the lookup run raises its not-found exception — whichever term actually
failed to match — the message names `terms[0]`. -/
theorem run_notfound_first_term (api : Passbolt.Api) (cfg : Passbolt.Cfg)
    (rng : Nat → Nat) (terms : List String) (kwargs : Dict) (msg : String)
    (hterms : terms ≠ [])
    (hdis : ¬ pyLower cfg.create_new_resource = "true")
    (herr : (Passbolt.run api cfg rng terms kwargs).1 =
      Except.error (Passbolt.RunErr.notFound msg)) :
    msg = "resource " ++ terms.headD "" ++ " not found" := by
  simp only [Passbolt.run] at herr
  exact runLoop_notfound api cfg rng (terms.headD "")
    (dget kwargs "description") (dget kwargs "password") terms _ msg herr

/-- Witness for the C10 theorem: the second term `b` cannot be named — the
raised message names the first term `a`. -/
theorem run_notfound_first_term_witness :
    "resource a not found" =
      "resource " ++ (["a", "b"] : List String).headD "" ++ " not found" :=
  run_notfound_first_term api0 cfgOff rng0 ["a", "b"] [] "resource a not found"
    (by decide) (by decide) rfl
